import Mathlib

/-!
Shallow embedding of the `Telegram` remote-control relay (telegram_bot.py).

Each command handler of the Python class is modelled as a pure function from
the inputs it reads (the Bot Facade snapshots, the current clock value, the
result of fallible external operations) to the effects it produces: the list
of messages passed to `send_msg`, the list of Bot Facade calls it issues, and
the value it leaves in the `config_reload_ts` field.

Modelling conventions:
* the float clock `time()` and the timestamp field are rationals (`ℚ`);
* a fallible external operation (reading/parsing the config file, the git
  version lookup, the transport send) is an explicit `Option`/`Except`
  parameter: `none`/`.error` models the operation raising;
* a handler that can raise an unhandled Python exception returns
  `Option String` (`none` = the exception escapes, no message is sent);
* the exact whitespace layout produced by PrettyTable is abstracted into an
  injective row-level rendering; row contents and row order are preserved
  faithfully (PrettyTable sorts rows with Python's stable sort, modelled by
  the stable `List.insertionSort`).
-/

namespace TelegramBot

/-- A parsed configuration (the result of `json.load`); its contents are
opaque to this module, which only passes it to `set_config` and dumps it. -/
abbrev Config := String

/-- `json.dumps(config, indent=4)`: the rendered form of an opaque config. -/
def dumps (c : Config) : String := c

/-- The Bot Facade mutator calls a handler can issue (`self._bot.…`).
`init_indicators` records that `_bot.init_indicators()` was scheduled as an
asynchronous task on the event loop. -/
inductive FacadeCall where
  | pause
  | resume
  | set_config (c : Config)
  | set_config_value (key : String) (value : Bool)
  | init_indicators
  deriving Repr, DecidableEq

/-- The observable effect of one handler invocation: the messages passed to
`send_msg` (in order), the Bot Facade calls issued (in order), and the value
of the `config_reload_ts` field afterwards. -/
structure Effect where
  msgs : List String
  calls : List FacadeCall
  ts : ℚ
  deriving Repr, DecidableEq

def inProgressMsg : String := "Config reload in progress, please wait"

def reloadingMsg : String := "Reloading config..."

def failedLoadMsg : String := "Failed to load config file"

/-- `Telegram._reload_config`.  `ts` is the current `config_reload_ts`,
`now` the value `time()` returns during this invocation, and `read` the
result of `json.load(open(sys.argv[3]))` — `none` models that the read or
parse raised.  The cooldown window is `60 * 5` seconds, as in the source. -/
def reload_config (ts now : ℚ) (read : Option Config) : Effect :=
  if ts > 0 ∧ now - ts < 60 * 5 then
    { msgs := [inProgressMsg], calls := [], ts := ts }
  else
    match read with
    | none => { msgs := [reloadingMsg, failedLoadMsg], calls := [], ts := 0 }
    | some config =>
        { msgs := [reloadingMsg],
          calls := [.pause, .set_config config, .init_indicators],
          ts := now }

/-- `Telegram.show_config`: the single message it sends.  `sha` is the result
of the git version lookup (`none` models the `try/except` falling back to
`'UNKNOWN'`). -/
def show_config (sha : Option String) (config : Config) : List String :=
  ["<pre><b>Version:</b></pre> " ++ sha.getD "UNKNOWN" ++
   ",\n<pre><b>Config:</b></pre> \n" ++ dumps config]

/-- `Telegram.log_start`: the started banner followed by the `show_config`
output. -/
def log_start (sha : Option String) (config : Config) : List String :=
  "<b>Passivbot started!</b>" :: show_config sha config

/-- The `init_finished` callback attached to the `init_indicators` task in
`_reload_config`: resume the bot, re-send the startup announcement, and
clear `config_reload_ts`. -/
def init_finished (sha : Option String) (config : Config) : Effect :=
  { msgs := log_start sha config, calls := [.resume], ts := 0 }

/-- `Telegram._graceful_stop`.  It does not touch `config_reload_ts`, so the
field value `ts` passes through unchanged. -/
def graceful_stop (ts : ℚ) : Effect :=
  { msgs := ["No longer opening new long or short positions, existing positions will be closed gracefully"],
    calls := [.set_config_value "do_long" false, .set_config_value "do_shrt" false],
    ts := ts }

/-- Folds a sequence of `/reload_config` invocations (each with its `time()`
value and config-read outcome) over the `config_reload_ts` field, collecting
each invocation's effect.  No `init_finished` callback fires inside the
sequence. -/
def runReloads : ℚ → List (ℚ × Option Config) → ℚ × List Effect
  | ts, [] => (ts, [])
  | ts, (now, read) :: rest =>
      let e := reload_config ts now read
      let (ts', effs) := runReloads e.ts rest
      (ts', e :: effs)

/-- One entry of `self._bot.open_orders`. -/
structure Order where
  price : ℚ
  qty : ℚ
  side : String
  position_side : String
  deriving Repr, DecidableEq

/-- One row added to the `/orders` PrettyTable: columns
`["l/s", "b/s", "price", "qty"]`. -/
structure Row where
  position_side : String
  side : String
  price : ℚ
  qty : ℚ
  deriving Repr, DecidableEq

/-- The row `_orders` adds for one order. -/
def orderRow (o : Order) : Row :=
  { position_side := o.position_side, side := o.side, price := o.price, qty := o.qty }

/-- `get_string(sortby="price")`: PrettyTable sorts the rows by the `price`
column with Python's stable `sorted`; `List.insertionSort` is stable. -/
def sortRows (rows : List Row) : List Row :=
  rows.insertionSort (fun a b => a.price ≤ b.price)

/-- The rows of the `/orders` table, in rendered order. -/
def orders_rows (orders : List Order) : List Row :=
  sortRows (orders.map orderRow)

/-- One value of the position mapping: a scalar figure or a per-side
sub-mapping of scalar figures. -/
inductive PosEntry where
  | num (v : ℚ)
  | sub (m : List (String × ℚ))
  deriving Repr, DecidableEq

/-- `self._bot.position`: a (possibly empty) mapping. -/
abbrev Position := List (String × PosEntry)

/-- A per-side sub-mapping (`position['long']`, `position['shrt']`). -/
abbrev SubMap := List (String × ℚ)

/-- How Python's f-string renders a position entry. -/
def entryStr : PosEntry → String
  | .num v => toString v
  | .sub m => toString m

def notRetrievedMsg : String := "Balance not retrieved yet, please try again later"

/-- The balance message body built when the snapshot is truthy. -/
def balanceText (e u a : PosEntry) : String :=
  "<pre><b>Balance:</b></pre>\nEquity: " ++ entryStr e ++
  "\nUsed margin: " ++ entryStr u ++ "\nAvailable margin: " ++ entryStr a

/-- `Telegram._balance`.  `bool(position)` is the emptiness test; looking up
a missing key raises (`none`). -/
def balance (pos : Position) : Option String :=
  if pos.isEmpty then some notRetrievedMsg
  else
    (pos.lookup "equity").bind fun e =>
    (pos.lookup "used_margin").bind fun u =>
    (pos.lookup "available_margin").bind fun a =>
    some (balanceText e u a)

def notInitializedMsg : String := "Position not initialized yet, please try again later"

/-- Subscripting a position entry as a mapping: raises (`none`) on a scalar. -/
def asSub : PosEntry → Option SubMap
  | .num _ => none
  | .sub m => some m

/-- The six table rows `_position` builds, reading each sub-field of both
sides in source order; `none` models an unhandled lookup error. -/
def position_table (lp sp : SubMap) : Option (List (String × ℚ × ℚ)) :=
  (lp.lookup "size").bind fun lsize =>
  (sp.lookup "size").bind fun ssize =>
  (lp.lookup "price").bind fun lprice =>
  (sp.lookup "price").bind fun sprice =>
  (lp.lookup "leverage").bind fun llev =>
  (sp.lookup "leverage").bind fun slev =>
  (lp.lookup "liquidation_price").bind fun lliq =>
  (sp.lookup "liquidation_price").bind fun sliq =>
  (lp.lookup "liq_diff").bind fun lld =>
  (sp.lookup "liq_diff").bind fun sld =>
  (lp.lookup "upnl").bind fun lup =>
  (sp.lookup "upnl").bind fun sup =>
  some [("Size", lsize, ssize), ("Price", lprice, sprice),
        ("Leverage", llev, slev), ("Liq.price", lliq, sliq),
        ("Liq.diff", lld, sld), ("UPNL", lup, sup)]

/-- Row-level rendering of the position table. -/
def renderPosRow (r : String × ℚ × ℚ) : String :=
  r.1 ++ " " ++ toString r.2.1 ++ " " ++ toString r.2.2

/-- `Telegram._position`.  The initialisation test is exactly
`'long' in self._bot.position`; afterwards `position['shrt']` and the six
sub-fields of both sides are accessed unconditionally, and a missing one
makes the handler raise (`none`: no message is sent). -/
def position (pos : Position) : Option String :=
  match pos.lookup "long" with
  | none => some notInitializedMsg
  | some le =>
      (pos.lookup "shrt").bind fun se =>
      (asSub le).bind fun lp =>
      (asSub se).bind fun sp =>
      (position_table lp sp).bind fun rows =>
      some ("<pre>" ++ String.intercalate "\n" (rows.map renderPosRow) ++ "</pre>")

/-- Whether all the accesses `_position` performs after the `'long'` guard
succeed: a `shrt` entry exists, both entries are sub-mappings, and each
carries the six sub-fields. -/
def hasPosFields (m : SubMap) : Bool :=
  (m.lookup "size").isSome && (m.lookup "price").isSome &&
  (m.lookup "leverage").isSome && (m.lookup "liquidation_price").isSome &&
  (m.lookup "liq_diff").isSome && (m.lookup "upnl").isSome

def positionAccessesOk (pos : Position) : Bool :=
  match pos.lookup "long", pos.lookup "shrt" with
  | some (.sub lp), some (.sub sp) => hasPosFields lp && hasPosFields sp
  | _, _ => false

def sendFailLog : String := "Failed to send telegram message"

/-- `Telegram.send_msg`.  `outcome` is the result of the external transport
call `self._updater.bot.send_message` (`.error` = it raised).  The handler
catches everything and only prints locally; being a total function into the
list of local log lines, it can never propagate a failure to its caller. -/
def send_msg (_msg : String) (outcome : Except String Unit) : List String :=
  match outcome with
  | .ok _ => []
  | .error _ => [sendFailLog]

/-! ### Helper lemmas -/

/-- A `/reload_config` invocation with a positive timestamp inside the
5-minute window is rejected without side effects. -/
lemma reload_config_rejected {ts now : ℚ} (read : Option Config)
    (h1 : 0 < ts) (h2 : now - ts < 300) :
    reload_config ts now read = { msgs := [inProgressMsg], calls := [], ts := ts } := by
  unfold reload_config
  rw [if_pos ⟨h1, by linarith⟩]

/-- A `/reload_config` invocation outside the guard proceeds: with a good
read it pauses, applies the config and schedules the indicator task. -/
lemma reload_config_accepted {ts now : ℚ} (c : Config)
    (h : ¬ (ts > 0 ∧ now - ts < 60 * 5)) :
    reload_config ts now (some c) =
      { msgs := [reloadingMsg],
        calls := [.pause, .set_config c, .init_indicators], ts := now } := by
  unfold reload_config
  rw [if_neg h]

/-- A `/reload_config` invocation outside the guard whose config read fails
reports the failure and clears the timestamp. -/
lemma reload_config_read_failed {ts now : ℚ} (h : ¬ (ts > 0 ∧ now - ts < 60 * 5)) :
    reload_config ts now none =
      { msgs := [reloadingMsg, failedLoadMsg], calls := [], ts := 0 } := by
  unfold reload_config
  rw [if_neg h]

/-- While the timestamp stays at a positive `t0` (no completion callback and
no reset), every invocation inside the window is rejected and the timestamp
survives. -/
lemma runReloads_all_rejected (t0 : ℚ) (h : 0 < t0) :
    ∀ rest : List (ℚ × Option Config), (∀ p ∈ rest, p.1 - t0 < 300) →
      runReloads t0 rest =
        (t0, rest.map fun _ => { msgs := [inProgressMsg], calls := [], ts := t0 }) := by
  intro rest
  induction rest with
  | nil => intro _; rfl
  | cons p rest ih =>
      intro hall
      have hp : p.1 - t0 < 300 := hall p (List.mem_cons_self p rest)
      have hrej := @reload_config_rejected t0 p.1 p.2 h hp
      have hrest := ih fun q hq => hall q (List.mem_cons_of_mem p hq)
      simp [runReloads, hrej, hrest]

/-- The two messages an accepted invocation can start with differ from the
rejection message. -/
lemma reloadingMsg_ne_inProgressMsg : reloadingMsg ≠ inProgressMsg := by decide

instance : IsTotal Row (fun a b => a.price ≤ b.price) :=
  ⟨fun a b => le_total a.price b.price⟩

instance : IsTrans Row (fun a b => a.price ≤ b.price) :=
  ⟨fun _ _ _ hab hbc => le_trans hab hbc⟩

/-- `position_table` succeeds exactly when both sides carry all six
sub-fields. -/
lemma position_table_isSome (lp sp : SubMap) :
    (position_table lp sp).isSome = (hasPosFields lp && hasPosFields sp) := by
  unfold position_table hasPosFields
  rcases h1 : lp.lookup "size" with _ | v1
  · simp only [h1, Option.none_bind, Option.isSome_none, Bool.false_and]
  rcases h2 : sp.lookup "size" with _ | v2
  · simp only [h1, h2, Option.some_bind, Option.none_bind, Option.isSome_none,
      Option.isSome_some, Bool.true_and, Bool.false_and, Bool.and_false]
  rcases h3 : lp.lookup "price" with _ | v3
  · simp only [h1, h2, h3, Option.some_bind, Option.none_bind, Option.isSome_none,
      Option.isSome_some, Bool.true_and, Bool.false_and, Bool.and_false]
  rcases h4 : sp.lookup "price" with _ | v4
  · simp only [h1, h2, h3, h4, Option.some_bind, Option.none_bind, Option.isSome_none,
      Option.isSome_some, Bool.true_and, Bool.false_and, Bool.and_false]
  rcases h5 : lp.lookup "leverage" with _ | v5
  · simp only [h1, h2, h3, h4, h5, Option.some_bind, Option.none_bind, Option.isSome_none,
      Option.isSome_some, Bool.true_and, Bool.false_and, Bool.and_false]
  rcases h6 : sp.lookup "leverage" with _ | v6
  · simp only [h1, h2, h3, h4, h5, h6, Option.some_bind, Option.none_bind, Option.isSome_none,
      Option.isSome_some, Bool.true_and, Bool.false_and, Bool.and_false]
  rcases h7 : lp.lookup "liquidation_price" with _ | v7
  · simp only [h1, h2, h3, h4, h5, h6, h7, Option.some_bind, Option.none_bind,
      Option.isSome_none, Option.isSome_some, Bool.true_and, Bool.false_and, Bool.and_false]
  rcases h8 : sp.lookup "liquidation_price" with _ | v8
  · simp only [h1, h2, h3, h4, h5, h6, h7, h8, Option.some_bind, Option.none_bind,
      Option.isSome_none, Option.isSome_some, Bool.true_and, Bool.false_and, Bool.and_false]
  rcases h9 : lp.lookup "liq_diff" with _ | v9
  · simp only [h1, h2, h3, h4, h5, h6, h7, h8, h9, Option.some_bind, Option.none_bind,
      Option.isSome_none, Option.isSome_some, Bool.true_and, Bool.false_and, Bool.and_false]
  rcases h10 : sp.lookup "liq_diff" with _ | v10
  · simp only [h1, h2, h3, h4, h5, h6, h7, h8, h9, h10, Option.some_bind, Option.none_bind,
      Option.isSome_none, Option.isSome_some, Bool.true_and, Bool.false_and, Bool.and_false]
  rcases h11 : lp.lookup "upnl" with _ | v11
  · simp only [h1, h2, h3, h4, h5, h6, h7, h8, h9, h10, h11, Option.some_bind,
      Option.none_bind, Option.isSome_none, Option.isSome_some, Bool.true_and,
      Bool.false_and, Bool.and_false]
  rcases h12 : sp.lookup "upnl" with _ | v12
  · simp only [h1, h2, h3, h4, h5, h6, h7, h8, h9, h10, h11, h12, Option.some_bind,
      Option.none_bind, Option.isSome_none, Option.isSome_some, Bool.true_and,
      Bool.false_and, Bool.and_false]
  simp only [h1, h2, h3, h4, h5, h6, h7, h8, h9, h10, h11, h12, Option.some_bind,
    Option.isSome_some, Bool.true_and, Bool.and_true]

/-- Invocations from a cleared timestamp are never rejected: the first
message is the reloading one, not the in-progress reply. -/
lemma reload_from_zero_accepted (now : ℚ) (read : Option Config) :
    (reload_config 0 now read).msgs.head? = some reloadingMsg ∧
    (reload_config 0 now read).msgs ≠ [inProgressMsg] := by
  have hguard : ¬ ((0 : ℚ) > 0 ∧ now - 0 < 60 * 5) := by
    rintro ⟨h, _⟩; exact lt_irrefl 0 h
  cases read with
  | none =>
      unfold reload_config
      rw [if_neg hguard]
      show [reloadingMsg, failedLoadMsg].head? = some reloadingMsg ∧
        [reloadingMsg, failedLoadMsg] ≠ [inProgressMsg]
      exact ⟨rfl, by decide⟩
  | some c =>
      unfold reload_config
      rw [if_neg hguard]
      show [reloadingMsg].head? = some reloadingMsg ∧ [reloadingMsg] ≠ [inProgressMsg]
      exact ⟨rfl, by decide⟩

/-! ### Claim theorems -/

/-- C1: while the reload timestamp is nonzero (timestamps are nonnegative)
and under 5 minutes old, `/reload_config` sends exactly the in-progress
reply, issues no Bot Facade call, and leaves the timestamp unchanged; hence
in any sequence of `/reload_config` invocations within a 5-minute window
whose first invocation succeeds, only the first issues the
pause/set_config/init sequence. -/
theorem reload_guard_only_first_triggers :
    (∀ (ts now : ℚ) (read : Option Config), 0 ≤ ts → ts ≠ 0 → now - ts < 300 →
        reload_config ts now read = { msgs := [inProgressMsg], calls := [], ts := ts }) ∧
    (∀ (t0 : ℚ) (c : Config) (rest : List (ℚ × Option Config)),
        0 < t0 → (∀ p ∈ rest, p.1 - t0 < 300) →
        (runReloads 0 ((t0, some c) :: rest)).2 =
          { msgs := [reloadingMsg],
            calls := [.pause, .set_config c, .init_indicators], ts := t0 }
            :: rest.map fun _ => { msgs := [inProgressMsg], calls := [], ts := t0 }) := by
  constructor
  · intro ts now read h0 hne hlt
    exact reload_config_rejected read (lt_of_le_of_ne h0 (Ne.symm hne)) hlt
  · intro t0 c rest ht0 hall
    have hguard : ¬ ((0 : ℚ) > 0 ∧ t0 - 0 < 60 * 5) := by
      rintro ⟨h, _⟩; exact lt_irrefl 0 h
    have hacc := @reload_config_accepted 0 t0 c hguard
    have hrest := runReloads_all_rejected t0 ht0 rest hall
    simp [runReloads, hacc, hrest]

theorem reload_guard_only_first_triggers_witness :
    reload_config 100 200 none = { msgs := [inProgressMsg], calls := [], ts := 100 } ∧
    (runReloads 0 [((100 : ℚ), some "cfg"), ((200 : ℚ), none)]).2 =
      [{ msgs := [reloadingMsg],
         calls := [.pause, .set_config "cfg", .init_indicators], ts := 100 },
       { msgs := [inProgressMsg], calls := [], ts := 100 }] :=
  ⟨reload_guard_only_first_triggers.1 100 200 none (by norm_num) (by norm_num) (by norm_num),
   reload_guard_only_first_triggers.2 100 "cfg" [((200 : ℚ), none)] (by norm_num)
     (by rintro p hp; simp only [List.mem_singleton] at hp; subst hp; norm_num)⟩

/-- C2: when the guard admits the invocation and the config read/parse
fails, the handler replies with the failure message, resets the timestamp to
exactly zero and returns with no pause/set_config issued; a retry from the
cleared timestamp is immediately accepted. -/
theorem reload_failure_resets_and_allows_retry :
    (∀ ts now : ℚ, ¬ (ts > 0 ∧ now - ts < 300) →
        reload_config ts now none =
          { msgs := [reloadingMsg, failedLoadMsg], calls := [], ts := 0 }) ∧
    (∀ (now : ℚ) (read : Option Config),
        (reload_config 0 now read).msgs.head? = some reloadingMsg ∧
        (reload_config 0 now read).msgs ≠ [inProgressMsg]) := by
  constructor
  · intro ts now h
    exact reload_config_read_failed fun hc => h ⟨hc.1, by linarith [hc.2]⟩
  · exact reload_from_zero_accepted

theorem reload_failure_resets_and_allows_retry_witness :
    reload_config 0 50 none = { msgs := [reloadingMsg, failedLoadMsg], calls := [], ts := 0 } :=
  reload_failure_resets_and_allows_retry.1 0 50
    (by rintro ⟨h, _⟩; exact lt_irrefl 0 h)

/-- C3: the completion callback of the indicator-reinitialisation task
resumes the bot, re-sends the started banner followed by exactly the
`/show_config` message, and resets the timestamp to zero, after which the
next `/reload_config` is accepted. -/
theorem init_finished_resumes_and_resets :
    ∀ (sha : Option String) (config : Config),
      init_finished sha config =
        { msgs := "<b>Passivbot started!</b>" :: show_config sha config,
          calls := [.resume], ts := 0 } ∧
      (∀ (now : ℚ) (read : Option Config),
        (reload_config 0 now read).msgs.head? = some reloadingMsg ∧
        (reload_config 0 now read).msgs ≠ [inProgressMsg]) := by
  intro sha config
  exact ⟨rfl, reload_from_zero_accepted⟩

/-- C4 counterexample: a reload is accepted at time 1000 and its init task
never completes (no completion event occurs in the run), yet the invocation
at time 1400 — more than 5 minutes later — is not rejected: it is accepted
and re-issues pause/set_config/init, so a second reload sequence starts
while the first is still in flight. -/
theorem stuck_reload_counterexample :
    (runReloads 0 [((1000 : ℚ), some "cfg"), ((1400 : ℚ), some "cfg")]).2.map Effect.msgs =
      [[reloadingMsg], [reloadingMsg]] ∧
    (runReloads 0 [((1000 : ℚ), some "cfg"), ((1400 : ℚ), some "cfg")]).2.map Effect.calls =
      [[.pause, .set_config "cfg", .init_indicators],
       [.pause, .set_config "cfg", .init_indicators]] := by
  have h1 := @reload_config_accepted 0 1000 "cfg" (by norm_num)
  have h2 := @reload_config_accepted 1000 1400 "cfg" (by norm_num)
  constructor <;> simp [runReloads, h1, h2]

/-- C4 amended: if a reload was accepted at `t0` and its init step never
completed (the timestamp still holds `t0`), a later `/reload_config` is
rejected — with the in-progress reply, no facade call, and the timestamp
preserved — only when invoked within 5 minutes of `t0`; from 5 minutes on,
an invocation is accepted again and issues a second pause/set_config/init
sequence. -/
theorem stuck_init_blocks_only_within_window :
    ∀ (t0 now : ℚ) (read : Option Config) (c : Config), 0 < t0 →
      (now - t0 < 300 →
        reload_config t0 now read = { msgs := [inProgressMsg], calls := [], ts := t0 }) ∧
      (300 ≤ now - t0 →
        reload_config t0 now (some c) =
          { msgs := [reloadingMsg],
            calls := [.pause, .set_config c, .init_indicators], ts := now }) := by
  intro t0 now read c ht0
  constructor
  · intro hlt
    exact reload_config_rejected read ht0 hlt
  · intro hge
    exact reload_config_accepted c (fun hc => by linarith [hc.2])

theorem stuck_init_blocks_only_within_window_witness :
    reload_config 1000 1100 (some "cfg") =
      { msgs := [inProgressMsg], calls := [], ts := 1000 } ∧
    reload_config 1000 1400 (some "cfg") =
      { msgs := [reloadingMsg],
        calls := [.pause, .set_config "cfg", .init_indicators], ts := 1400 } :=
  ⟨(stuck_init_blocks_only_within_window 1000 1100 (some "cfg") "cfg" (by norm_num)).1
      (by norm_num),
   (stuck_init_blocks_only_within_window 1000 1400 (some "cfg") "cfg" (by norm_num)).2
      (by norm_num)⟩

/-- C5 counterexample: a reload attempt accepted at time 1000 fails to read
the config, which resets the timestamp; the very next invocation at time
1001 — one second later — is accepted and proceeds to pause/set_config/init,
so consecutive acceptances are not 5 minutes apart. -/
theorem cooldown_counterexample :
    (runReloads 0 [((1000 : ℚ), none), ((1001 : ℚ), some "cfg")]).2.map Effect.msgs =
      [[reloadingMsg, failedLoadMsg], [reloadingMsg]] ∧
    (runReloads 0 [((1000 : ℚ), none), ((1001 : ℚ), some "cfg")]).2.map Effect.calls =
      [[], [.pause, .set_config "cfg", .init_indicators]] ∧
    ((1001 : ℚ) - 1000 < 300) := by
  have h1 := @reload_config_read_failed 0 1000 (by norm_num)
  have h2 := @reload_config_accepted 0 1001 "cfg" (by norm_num)
  refine ⟨?_, ?_, by norm_num⟩ <;> simp [runReloads, h1, h2]

/-- C5 amended: at least 5 minutes elapse between the acceptance of one
reload attempt (at the time still held in the timestamp) and the acceptance
of the next, provided the earlier attempt has not concluded — a config-read
failure or init completion resets the timestamp to zero and re-enables
immediate acceptance. -/
theorem cooldown_holds_while_timestamp_set :
    ∀ (ts now : ℚ) (read : Option Config), 0 < ts →
      (reload_config ts now read).msgs ≠ [inProgressMsg] → 300 ≤ now - ts := by
  intro ts now read hts hmsg
  by_contra hlt
  push_neg at hlt
  exact hmsg (by rw [reload_config_rejected read hts hlt])

theorem cooldown_holds_while_timestamp_set_witness :
    (300 : ℚ) ≤ 1300 - 1000 :=
  cooldown_holds_while_timestamp_set 1000 1300 none (by norm_num)
    (by rw [reload_config_read_failed (by norm_num)]; decide)

/-- C6: `/graceful_stop` issues exactly the two mutator calls
`set_config_value('do_long', false)` and `set_config_value('do_shrt', false)`
followed by one confirmation message; it issues no pause, resume,
set_config or init_indicators, and leaves the reload timestamp untouched. -/
theorem graceful_stop_exactly_two_mutators :
    ∀ ts : ℚ,
      graceful_stop ts =
        { msgs := ["No longer opening new long or short positions, existing positions will be closed gracefully"],
          calls := [.set_config_value "do_long" false, .set_config_value "do_shrt" false],
          ts := ts } ∧
      FacadeCall.pause ∉ (graceful_stop ts).calls ∧
      FacadeCall.resume ∉ (graceful_stop ts).calls ∧
      FacadeCall.init_indicators ∉ (graceful_stop ts).calls ∧
      ∀ c : Config, FacadeCall.set_config c ∉ (graceful_stop ts).calls := by
  intro ts
  refine ⟨rfl, ?_, ?_, ?_, ?_⟩ <;> simp [graceful_stop]

/-- C7: `/orders` renders one row per order, carrying its position-side,
side, price and qty, sorted ascending by price; on the two-order example the
90-price row precedes the 100-price row. -/
theorem orders_table_sorted_by_price :
    (∀ orders : List Order,
        (orders_rows orders).Pairwise (fun a b => a.price ≤ b.price) ∧
        (orders_rows orders).Perm (orders.map orderRow)) ∧
    orders_rows
        [{ price := 100, qty := 1, side := "buy", position_side := "long" },
         { price := 90, qty := 2, side := "sell", position_side := "shrt" }] =
      [{ position_side := "shrt", side := "sell", price := 90, qty := 2 },
       { position_side := "long", side := "buy", price := 100, qty := 1 }] := by
  constructor
  · intro orders
    exact ⟨List.sorted_insertionSort (fun a b : Row => a.price ≤ b.price) (orders.map orderRow),
           List.perm_insertionSort _ _⟩
  · decide

/-- C8: with an empty snapshot `/balance` replies "not retrieved yet",
touching no position field; with a populated snapshot — which per the data
model carries the three balance keys — it reports equity, used margin and
available margin. -/
theorem balance_empty_safe :
    balance [] = some notRetrievedMsg ∧
    (∀ (pos : Position) (e u a : PosEntry),
        pos.lookup "equity" = some e → pos.lookup "used_margin" = some u →
        pos.lookup "available_margin" = some a →
        balance pos = some (balanceText e u a)) := by
  constructor
  · rfl
  · intro pos e u a he hu ha
    have hne : pos.isEmpty = false := by
      cases pos with
      | nil => simp [List.lookup] at he
      | cons p l => rfl
    simp [balance, hne, he, hu, ha]

theorem balance_empty_safe_witness :
    balance [("equity", PosEntry.num 1), ("used_margin", PosEntry.num 2),
             ("available_margin", PosEntry.num 3)] =
      some (balanceText (PosEntry.num 1) (PosEntry.num 2) (PosEntry.num 3)) :=
  balance_empty_safe.2 _ _ _ _ rfl rfl rfl

/-- C9: the send operation is a total function into its local log: for every
message and transport outcome it returns normally — on failure it only
records the local failure line, on success it logs nothing — so no send
failure ever reaches a command handler or the host bot. -/
theorem send_msg_never_raises :
    ∀ (m : String) (outcome : Except String Unit),
      (send_msg m outcome = [] ∨ send_msg m outcome = [sendFailLog]) ∧
      (∀ e, outcome = .error e → send_msg m outcome = [sendFailLog]) ∧
      (outcome = .ok () → send_msg m outcome = []) := by
  intro m outcome
  cases outcome <;> simp [send_msg]

theorem send_msg_never_raises_witness :
    send_msg "hello" (Except.error "boom") = [sendFailLog] ∧
    send_msg "hello" (Except.ok ()) = [] :=
  ⟨(send_msg_never_raises "hello" (Except.error "boom")).2.1 "boom" rfl,
   (send_msg_never_raises "hello" (Except.ok ())).2.2 rfl⟩

/-- C10: the `'long'` key alone decides initialisation: any mapping lacking
it gets the "not initialized" reply (even when a `shrt` entry is present),
and any mapping containing it makes the handler access the `shrt` entry and
the six sub-fields of both sides, sending a message exactly when all those
accesses succeed and raising (sending nothing) when any is absent. -/
theorem position_long_key_decides :
    (∀ pos : Position, pos.lookup "long" = none → position pos = some notInitializedMsg) ∧
    (∀ (pos : Position) (le : PosEntry), pos.lookup "long" = some le →
        (position pos).isSome = positionAccessesOk pos) := by
  constructor
  · intro pos hnone
    unfold position
    rw [hnone]
  · intro pos le hle
    unfold position positionAccessesOk
    rw [hle]
    rcases hse : pos.lookup "shrt" with _ | se
    · simp
    rcases le with v | lp
    · simp [asSub]
    rcases se with w | sp
    · simp [asSub]
    simp only [asSub, Option.some_bind]
    rcases hpt : position_table lp sp with _ | rows
    · have h := position_table_isSome lp sp
      rw [hpt] at h
      simp [← h]
    · have h := position_table_isSome lp sp
      rw [hpt] at h
      simp [← h]

theorem position_long_key_decides_witness :
    position [("shrt", PosEntry.sub [])] = some notInitializedMsg ∧
    (position [("long", PosEntry.sub []), ("shrt", PosEntry.sub [])]).isSome =
      positionAccessesOk [("long", PosEntry.sub []), ("shrt", PosEntry.sub [])] :=
  ⟨position_long_key_decides.1 _ rfl,
   position_long_key_decides.2 _ (PosEntry.sub []) rfl⟩

end TelegramBot
